import Mathlib

/-!
Verification of the motion-recording and playback controller of the
Astra repository.  The controller lives in three places in the source:

* `src/stores/motionStore.ts` — the zustand store holding
  `isRecording`, `recordedData` and `currentDataIndex` together with the
  operations `startRecording`, `stopRecording`, `addDataPoint`,
  `clearRecordedData`, `nextDataPoint` and `previousDataPoint`;
* `src/App.js` — a local-state playback variant with
  `handleStartPlayback` / `handleStopPlayback` / `getCurrentMotionData`
  and an interval tick;
* the `VisualizeScreen` component — a playback variant driving the store
  cursor with `nextDataPoint` on each tick and displaying
  `recordedData[currentDataIndex % recordedData.length]`.

Samples (`MotionData`) carry a sensor kind, a timestamp, raw axis values
and optional derived rotation fields.  Axis values are modelled as
rationals: the controller never performs arithmetic on them, it only
moves them around, so any number type is faithful.  Indices are modelled
as integers and the JavaScript `Math.max` / `Math.min` / `%` operations
are embedded explicitly (`%` on integers in JavaScript is the truncating
remainder, `Int.tmod`).
-/

/-- The sensor kind of a sample: the `type` field of `MotionData` in
`src/stores/motionStore.ts` is the union `'accelerometer' | 'gyroscope'`. -/
inductive SensorType where
  | accelerometer
  | gyroscope
deriving DecidableEq, Repr

/-- One motion sample, the `MotionData` interface of
`src/stores/motionStore.ts`: a kind, a millisecond timestamp, raw axis
readings `x, y, z`, and optional `rotationX/Y/Z` fields. -/
structure MotionData where
  type : SensorType
  timestamp : Int
  x : ℚ
  y : ℚ
  z : ℚ
  rotationX : Option ℚ
  rotationY : Option ℚ
  rotationZ : Option ℚ
deriving DecidableEq, Repr

/-- The mutable state of the zustand store in
`src/stores/motionStore.ts`: the recording flag, the recorded log and
the playback cursor. -/
structure MotionState where
  isRecording : Bool
  recordedData : List MotionData
  currentDataIndex : Int
deriving DecidableEq, Repr

/-- The initial store state: `isRecording: false`, `recordedData: []`,
`currentDataIndex: 0`. -/
def initialState : MotionState :=
  { isRecording := false, recordedData := [], currentDataIndex := 0 }

/-- `startRecording` from `src/stores/motionStore.ts`: sets
`isRecording` to true, clears `recordedData` and resets
`currentDataIndex` to 0, regardless of the previous state. -/
def startRecording (_s : MotionState) : MotionState :=
  { isRecording := true, recordedData := [], currentDataIndex := 0 }

/-- `stopRecording` from `src/stores/motionStore.ts`: sets only
`isRecording` to false, retaining the log and the cursor. -/
def stopRecording (s : MotionState) : MotionState :=
  { s with isRecording := false }

/-- `addDataPoint` from `src/stores/motionStore.ts`: returns without
mutation when `isRecording` is false; otherwise appends the sample to
`recordedData` and sets `currentDataIndex` to the length of the log
before the append. -/
def addDataPoint (dataPoint : MotionData) (s : MotionState) : MotionState :=
  if s.isRecording then
    { s with
      recordedData := s.recordedData ++ [dataPoint],
      currentDataIndex := (s.recordedData.length : Int) }
  else s

/-- A sequence of `addDataPoint` calls, applied in order. -/
def addDataPoints (dataPoints : List MotionData) (s : MotionState) : MotionState :=
  dataPoints.foldl (fun st d => addDataPoint d st) s

/-- `clearRecordedData` from `src/stores/motionStore.ts`: empties the
log, resets the cursor to 0 and forces `isRecording` to false. -/
def clearRecordedData (_s : MotionState) : MotionState :=
  { isRecording := false, recordedData := [], currentDataIndex := 0 }

/-- `nextDataPoint` from `src/stores/motionStore.ts`:
`Math.min(currentDataIndex + 1, Math.max(0, recordedData.length - 1))`. -/
def nextDataPoint (s : MotionState) : MotionState :=
  { s with
    currentDataIndex :=
      min (s.currentDataIndex + 1) (max 0 ((s.recordedData.length : Int) - 1)) }

/-- `previousDataPoint` from `src/stores/motionStore.ts`:
`Math.max(0, currentDataIndex - 1)`. -/
def previousDataPoint (s : MotionState) : MotionState :=
  { s with currentDataIndex := max 0 (s.currentDataIndex - 1) }

/-- The cursor invariant of the store:
`0 <= currentDataIndex <= max 0 (recordedData.length - 1)`. -/
def StateInv (s : MotionState) : Prop :=
  0 ≤ s.currentDataIndex ∧
    s.currentDataIndex ≤ max 0 ((s.recordedData.length : Int) - 1)

instance (s : MotionState) : Decidable (StateInv s) := by
  unfold StateInv; infer_instance

/-- The playback-related local state of `src/App.js`: the recorded log,
the frame cursor `currentFrameIndex`, the `isPlaying` flag and whether a
playback interval is currently registered
(`playbackIntervalRef.current !== null`). -/
structure AppPlaybackState where
  recordedData : List MotionData
  currentFrameIndex : Int
  isPlaying : Bool
  intervalActive : Bool
deriving DecidableEq, Repr

/-- `clearPlaybackInterval` from `src/App.js`: clears the interval and
nulls the ref only when one is registered; otherwise does nothing. -/
def clearPlaybackInterval (s : AppPlaybackState) : AppPlaybackState :=
  if s.intervalActive then { s with intervalActive := false } else s

/-- `handleStartPlayback` from `src/App.js`: returns immediately on an
empty log; otherwise sets `isPlaying`, resets the frame cursor to 0,
clears any previous interval and registers a fresh 100 ms interval. -/
def handleStartPlayback (s : AppPlaybackState) : AppPlaybackState :=
  if s.recordedData.length = 0 then s
  else
    { s with isPlaying := true, currentFrameIndex := 0, intervalActive := true }

/-- One firing of the interval callback installed by
`handleStartPlayback` in `src/App.js`: when the previous index is at or
past `recordedData.length - 1` it clears the interval, sets `isPlaying`
to false and resets the index to 0; otherwise it increments the index
by 1. -/
def playbackTick (s : AppPlaybackState) : AppPlaybackState :=
  if (s.recordedData.length : Int) - 1 ≤ s.currentFrameIndex then
    { clearPlaybackInterval s with isPlaying := false, currentFrameIndex := 0 }
  else
    { s with currentFrameIndex := s.currentFrameIndex + 1 }

/-- `handleStopPlayback` from `src/App.js`: sets `isPlaying` to false
and then calls `clearPlaybackInterval`. -/
def handleStopPlayback (s : AppPlaybackState) : AppPlaybackState :=
  clearPlaybackInterval { s with isPlaying := false }

/-- `getCurrentMotionData` from `src/App.js`: returns `null` when the
log is empty or playback is not active, else `recordedData[currentFrameIndex]`
(out-of-range indexing yields the absent value, as in JavaScript). -/
def getCurrentMotionData (s : AppPlaybackState) : Option MotionData :=
  if s.recordedData.length = 0 ∨ s.isPlaying = false then none
  else s.recordedData.get? s.currentFrameIndex.toNat

/-- The state of the `VisualizeScreen` component: the motion store plus
the component-local `isPlaying` flag. -/
structure VisualizeState where
  store : MotionState
  isPlaying : Bool
deriving DecidableEq, Repr

/-- One firing of the 100 ms interval installed by `VisualizeScreen`
while `isPlaying` is true: the callback only calls `nextDataPoint` on
the store; the component's `isPlaying` flag is untouched and the
interval is not cancelled by the callback. -/
def visualizeTick (s : VisualizeState) : VisualizeState :=
  { s with store := nextDataPoint s.store }

/-- The `currentMotionData` expression of `VisualizeScreen`:
`recordedData.length > 0 ? recordedData[currentDataIndex % recordedData.length] : null`,
with the JavaScript truncating remainder. -/
def currentMotionData (recordedData : List MotionData) (idx : Int) : Option MotionData :=
  if 0 < recordedData.length then
    recordedData.get? (Int.tmod idx (recordedData.length : Int)).toNat
  else none

/-- The sample built by the accelerometer listener in
`src/components/MotionTracker.tsx` when recording: raw axes kept, and
`rotationX: data.y`, `rotationY: data.x`, `rotationZ: data.z`. -/
def tsxAccelSample (t : Int) (x y z : ℚ) : MotionData :=
  { type := .accelerometer, timestamp := t, x := x, y := y, z := z,
    rotationX := some y, rotationY := some x, rotationZ := some z }

/-- The sample built by the gyroscope listener in
`src/components/MotionTracker.tsx` when recording: raw axes kept, and
`rotationX: data.x`, `rotationY: data.y`, `rotationZ: data.z`. -/
def tsxGyroSample (t : Int) (x y z : ℚ) : MotionData :=
  { type := .gyroscope, timestamp := t, x := x, y := y, z := z,
    rotationX := some x, rotationY := some y, rotationZ := some z }

/-- The sample built by the accelerometer listener in
`src/components/MotionTracker.js` when recording: rotation fields taken
from the spring-animated values `motionY/motionX/motionZ`, raw axes
from the spread of the sensor reading. -/
def jsAccelSample (t : Int) (x y z mx my mz : ℚ) : MotionData :=
  { type := .accelerometer, timestamp := t, x := x, y := y, z := z,
    rotationX := some my, rotationY := some mx, rotationZ := some mz }

/-- The sample built by the gyroscope listener in
`src/components/MotionTracker.js` when recording: raw axes only, no
rotation fields. -/
def jsGyroSample (t : Int) (x y z : ℚ) : MotionData :=
  { type := .gyroscope, timestamp := t, x := x, y := y, z := z,
    rotationX := none, rotationY := none, rotationZ := none }

/-- What the gyroscope listener of `src/components/MotionTracker.js`
forwards to `onDataPoint`: nothing — the constructed sample is dropped
(the listener never calls `onDataPoint`). -/
def jsGyroEmit (_t : Int) (_x _y _z : ℚ) : Option MotionData := none

/-- Concrete sample used in witnesses and counterexamples. -/
def sampleA : MotionData :=
  { type := .accelerometer, timestamp := 100, x := 1, y := 2, z := 3,
    rotationX := some 2, rotationY := some 1, rotationZ := some 3 }

/-- A second concrete sample, distinct from `sampleA`. -/
def sampleB : MotionData :=
  { type := .gyroscope, timestamp := 200, x := 4, y := 5, z := 6,
    rotationX := none, rotationY := none, rotationZ := none }

/-- C1: when `isRecording` is false, `addDataPoint` leaves the state
unchanged (all three fields identical), and hence any sequence of
`addDataPoint` calls issued while not recording leaves the state, in
particular the log length, unchanged. -/
theorem addDataPoint_noop_when_idle (s : MotionState) (d : MotionData)
    (ds : List MotionData) (h : s.isRecording = false) :
    addDataPoint d s = s ∧ addDataPoints ds s = s ∧
      (addDataPoints ds s).recordedData.length = s.recordedData.length := by
  have h1 : ∀ d, addDataPoint d s = s := by
    intro d
    unfold addDataPoint
    rw [h]
    simp
  have h2 : addDataPoints ds s = s := by
    induction ds with
    | nil => rfl
    | cons a tl ih =>
        unfold addDataPoints at ih ⊢
        rw [List.foldl_cons, h1 a]
        exact ih
  exact ⟨h1 d, h2, by rw [h2]⟩

/-- Witness for C1: with a non-empty log and recording off, a single
call and a two-call sequence both leave the state untouched. -/
theorem addDataPoint_noop_when_idle_witness :
    (MotionState.mk false [sampleA] 0).isRecording = false ∧
      addDataPoint sampleB (MotionState.mk false [sampleA] 0)
        = MotionState.mk false [sampleA] 0 ∧
      addDataPoints [sampleB, sampleA] (MotionState.mk false [sampleA] 0)
        = MotionState.mk false [sampleA] 0 ∧
      (addDataPoints [sampleB, sampleA] (MotionState.mk false [sampleA] 0)).recordedData.length
        = (MotionState.mk false [sampleA] 0).recordedData.length := by
  have h := addDataPoint_noop_when_idle (MotionState.mk false [sampleA] 0)
    sampleB [sampleB, sampleA] (by decide)
  exact ⟨by decide, h.1, h.2.1, h.2.2⟩

/-- C2: `startRecording` always produces the state with an empty log,
cursor 0 and `isRecording = true`, regardless of the prior state; in
particular calling it while already recording (for example right after
a previous `startRecording`) restarts the session rather than failing. -/
theorem startRecording_resets (s : MotionState) :
    (startRecording s).recordedData = [] ∧
      (startRecording s).currentDataIndex = 0 ∧
      (startRecording s).isRecording = true ∧
      startRecording (startRecording s) = startRecording s :=
  ⟨rfl, rfl, rfl, rfl⟩

/-- C10: an accepted `addDataPoint` (one performed while `isRecording`
is true) appends the sample and sets `currentDataIndex` to the length
of the log before the append, which is exactly the index of the newly
appended sample. -/
theorem addDataPoint_cursor_at_newest (s : MotionState) (d : MotionData)
    (h : s.isRecording = true) :
    (addDataPoint d s).recordedData = s.recordedData ++ [d] ∧
      (addDataPoint d s).currentDataIndex = (s.recordedData.length : Int) ∧
      (addDataPoint d s).recordedData.get? s.recordedData.length = some d := by
  unfold addDataPoint
  rw [h]
  refine ⟨rfl, rfl, ?_⟩
  simp

/-- Witness for C10: from a recording state whose cursor had been moved
back to 0 over a two-sample log, an accepted append puts the cursor at
the new sample's index 2, overwriting the navigated position. -/
theorem addDataPoint_cursor_at_newest_witness :
    (addDataPoint sampleB (MotionState.mk true [sampleA, sampleA] 0)).recordedData
        = [sampleA, sampleA] ++ [sampleB] ∧
      (addDataPoint sampleB (MotionState.mk true [sampleA, sampleA] 0)).currentDataIndex = 2 ∧
      (addDataPoint sampleB (MotionState.mk true [sampleA, sampleA] 0)).recordedData.get? 2
        = some sampleB := by
  have h := addDataPoint_cursor_at_newest (MotionState.mk true [sampleA, sampleA] 0)
    sampleB (by decide)
  exact ⟨h.1, h.2.1, h.2.2⟩

/-- C3: starting from a state satisfying the cursor invariant, on a
non-empty log `nextDataPoint` and `previousDataPoint` land inside
`[0, length - 1]`, `previousDataPoint` at index 0 and `nextDataPoint`
at the final index leave the whole state unchanged (saturating), and on
an empty log both operations leave the whole state unchanged. -/
theorem navigation_clamped (s : MotionState) (hinv : StateInv s) :
    (s.recordedData ≠ [] →
      (0 ≤ (nextDataPoint s).currentDataIndex ∧
        (nextDataPoint s).currentDataIndex ≤ (s.recordedData.length : Int) - 1) ∧
      (0 ≤ (previousDataPoint s).currentDataIndex ∧
        (previousDataPoint s).currentDataIndex ≤ (s.recordedData.length : Int) - 1) ∧
      (s.currentDataIndex = 0 → previousDataPoint s = s) ∧
      (s.currentDataIndex = (s.recordedData.length : Int) - 1 → nextDataPoint s = s)) ∧
    (s.recordedData = [] → nextDataPoint s = s ∧ previousDataPoint s = s) := by
  obtain ⟨h0, h1⟩ := hinv
  cases s with
  | mk rec log idx =>
    simp only [nextDataPoint, previousDataPoint, MotionState.mk.injEq,
      true_and] at h0 h1 ⊢
    constructor
    · intro hne
      have hlen : 1 ≤ (log.length : Int) := by
        have := List.length_pos.mpr hne
        omega
      refine ⟨⟨?_, ?_⟩, ⟨?_, ?_⟩, ?_, ?_⟩ <;> omega
    · intro hnil
      have hlen : (log.length : Int) = 0 := by simp [hnil]
      constructor <;> omega

/-- Witness for C3: the invariant holds for a two-sample log with the
cursor at the final index 1; there `nextDataPoint` stays in bounds and
is a no-op, and on the empty initial state both operations are
no-ops. -/
theorem navigation_clamped_witness :
    StateInv (MotionState.mk false [sampleA, sampleB] 1) ∧
      (nextDataPoint (MotionState.mk false [sampleA, sampleB] 1)
          = MotionState.mk false [sampleA, sampleB] 1) ∧
      StateInv initialState ∧
      (nextDataPoint initialState = initialState ∧
        previousDataPoint initialState = initialState) := by
  have h := navigation_clamped (MotionState.mk false [sampleA, sampleB] 1) (by decide)
  have h0 := navigation_clamped initialState (by decide)
  exact ⟨by decide, (h.1 (by decide)).2.2.2 (by decide), by decide,
    h0.2 (by decide)⟩

/-- C7: each of the six store operations preserves the cursor invariant
`0 ≤ currentDataIndex ≤ max 0 (length - 1)`. -/
theorem store_ops_preserve_inv (s : MotionState) (d : MotionData)
    (hinv : StateInv s) :
    StateInv (startRecording s) ∧ StateInv (stopRecording s) ∧
      StateInv (addDataPoint d s) ∧ StateInv (clearRecordedData s) ∧
      StateInv (nextDataPoint s) ∧ StateInv (previousDataPoint s) := by
  obtain ⟨h0, h1⟩ := hinv
  refine ⟨by simp [StateInv, startRecording], ⟨h0, h1⟩, ?_,
    by simp [StateInv, clearRecordedData], ?_, ?_⟩
  · unfold addDataPoint
    by_cases hrec : s.isRecording
    · simp only [hrec, if_true, StateInv, List.length_append, List.length_cons,
        List.length_nil]
      push_cast
      omega
    · simp only [hrec, if_false]
      exact ⟨h0, h1⟩
  · exact ⟨by simp [nextDataPoint]; omega, by simp [nextDataPoint]; omega⟩
  · exact ⟨by simp [previousDataPoint], by simp [previousDataPoint]; omega⟩

/-- Witness for C7: the invariant holds at a concrete recording state
and is preserved by all six operations there. -/
theorem store_ops_preserve_inv_witness :
    StateInv (MotionState.mk true [sampleA, sampleB] 1) ∧
      StateInv (startRecording (MotionState.mk true [sampleA, sampleB] 1)) ∧
      StateInv (stopRecording (MotionState.mk true [sampleA, sampleB] 1)) ∧
      StateInv (addDataPoint sampleA (MotionState.mk true [sampleA, sampleB] 1)) ∧
      StateInv (clearRecordedData (MotionState.mk true [sampleA, sampleB] 1)) ∧
      StateInv (nextDataPoint (MotionState.mk true [sampleA, sampleB] 1)) ∧
      StateInv (previousDataPoint (MotionState.mk true [sampleA, sampleB] 1)) := by
  have h := store_ops_preserve_inv (MotionState.mk true [sampleA, sampleB] 1)
    sampleA (by decide)
  exact ⟨by decide, h.1, h.2.1, h.2.2.1, h.2.2.2.1, h.2.2.2.2.1, h.2.2.2.2.2⟩

/-- C4: in the App.js playback variant, a tick firing while `isPlaying`
is true and the frame cursor is at or past the final index
(`currentFrameIndex >= recordedData.length - 1`) resets the cursor to
0, cancels the ticker and sets `isPlaying` to false; a tick at any
earlier index increments the cursor by exactly 1 and playback continues
(`isPlaying` stays true and the ticker registration is untouched). -/
theorem playbackTick_boundary (s : AppPlaybackState) (hp : s.isPlaying = true) :
    ((s.recordedData.length : Int) - 1 ≤ s.currentFrameIndex →
      (playbackTick s).currentFrameIndex = 0 ∧
        (playbackTick s).intervalActive = false ∧
        (playbackTick s).isPlaying = false ∧
        (playbackTick s).recordedData = s.recordedData) ∧
    (s.currentFrameIndex < (s.recordedData.length : Int) - 1 →
      (playbackTick s).currentFrameIndex = s.currentFrameIndex + 1 ∧
        (playbackTick s).isPlaying = true ∧
        (playbackTick s).intervalActive = s.intervalActive ∧
        (playbackTick s).recordedData = s.recordedData) := by
  unfold playbackTick clearPlaybackInterval
  constructor
  · intro hend
    rw [if_pos hend]
    by_cases hact : s.intervalActive <;> simp [hact]
  · intro hmid
    rw [if_neg (by omega)]
    exact ⟨rfl, hp, rfl, rfl⟩

/-- Witness for C4: over a two-sample log, a tick at index 1 (final)
wraps to 0 and stops, and a tick at index 0 advances to 1 with playback
still running. -/
theorem playbackTick_boundary_witness :
    ((playbackTick (AppPlaybackState.mk [sampleA, sampleB] 1 true true)).currentFrameIndex = 0 ∧
      (playbackTick (AppPlaybackState.mk [sampleA, sampleB] 1 true true)).intervalActive = false ∧
      (playbackTick (AppPlaybackState.mk [sampleA, sampleB] 1 true true)).isPlaying = false ∧
      (playbackTick (AppPlaybackState.mk [sampleA, sampleB] 1 true true)).recordedData
        = [sampleA, sampleB]) ∧
    ((playbackTick (AppPlaybackState.mk [sampleA, sampleB] 0 true true)).currentFrameIndex = 1 ∧
      (playbackTick (AppPlaybackState.mk [sampleA, sampleB] 0 true true)).isPlaying = true ∧
      (playbackTick (AppPlaybackState.mk [sampleA, sampleB] 0 true true)).intervalActive = true ∧
      (playbackTick (AppPlaybackState.mk [sampleA, sampleB] 0 true true)).recordedData
        = [sampleA, sampleB]) := by
  have hend := (playbackTick_boundary
    (AppPlaybackState.mk [sampleA, sampleB] 1 true true) rfl).1 (by decide)
  have hmid := (playbackTick_boundary
    (AppPlaybackState.mk [sampleA, sampleB] 0 true true) rfl).2 (by decide)
  exact ⟨hend, hmid.1, hmid.2.1, hmid.2.2.1, hmid.2.2.2⟩

/-- C9: stopping playback in App.js is idempotent: for every state,
`handleStopPlayback` applied twice equals it applied once; the result
always has `isPlaying` false and no ticker registered; and when no
ticker was ever started the call only lowers the `isPlaying` flag (the
absent-interval guard makes the cancellation a safe no-op). -/
theorem handleStopPlayback_idempotent (s : AppPlaybackState) :
    handleStopPlayback (handleStopPlayback s) = handleStopPlayback s ∧
      (handleStopPlayback s).isPlaying = false ∧
      (handleStopPlayback s).intervalActive = false ∧
      handleStopPlayback { s with intervalActive := false }
        = { s with isPlaying := false, intervalActive := false } := by
  unfold handleStopPlayback clearPlaybackInterval
  by_cases hact : s.intervalActive <;> simp [hact]

/-- Counterexample to C5: with the two-sample log `[sampleA, sampleB]`,
the cursor at the final index 1 and `isPlaying` true, one tick of
`VisualizeScreen` leaves the whole state fixed and the displayed frame
stays `sampleB`; it never wraps back to `sampleA`, so playback does not
loop over the log. -/
theorem visualize_no_wrap_counterexample :
    visualizeTick (VisualizeState.mk (MotionState.mk false [sampleA, sampleB] 1) true)
        = VisualizeState.mk (MotionState.mk false [sampleA, sampleB] 1) true ∧
      currentMotionData [sampleA, sampleB]
          (visualizeTick (VisualizeState.mk (MotionState.mk false [sampleA, sampleB] 1) true)).store.currentDataIndex
        = some sampleB ∧
      some sampleB ≠ some sampleA := by decide

/-- C5 amended: in the VisualizeScreen playback variant, while
`isPlaying` is true each tick only advances the store cursor with the
saturating `nextDataPoint` and never leaves the Playing state; the
displayed frame is `recordedData[currentDataIndex % length]`, which for
an in-bounds cursor equals the frame at the cursor itself (the modulo
never wraps), and once the cursor is at the final index a tick leaves
the state fixed — playback stalls on the last frame instead of
looping. -/
theorem visualizeTick_saturating (s : VisualizeState) (hinv : StateInv s.store)
    (hne : s.store.recordedData ≠ []) :
    (visualizeTick s).isPlaying = s.isPlaying ∧
      (visualizeTick s).store.recordedData = s.store.recordedData ∧
      (visualizeTick s).store.currentDataIndex =
        min (s.store.currentDataIndex + 1) ((s.store.recordedData.length : Int) - 1) ∧
      currentMotionData s.store.recordedData s.store.currentDataIndex =
        s.store.recordedData.get? s.store.currentDataIndex.toNat ∧
      (s.store.currentDataIndex = (s.store.recordedData.length : Int) - 1 →
        visualizeTick s = s) := by
  obtain ⟨h0, h1⟩ := hinv
  have hpos : 0 < s.store.recordedData.length := List.length_pos.mpr hne
  have hlen : 1 ≤ (s.store.recordedData.length : Int) := by omega
  refine ⟨rfl, rfl, ?_, ?_, ?_⟩
  · simp only [visualizeTick, nextDataPoint]
    rw [max_eq_right (by omega : (0 : Int) ≤ (s.store.recordedData.length : Int) - 1)]
  · unfold currentMotionData
    rw [if_pos hpos, Int.tmod_eq_of_lt h0 (by omega)]
  · intro hlast
    have hstay : nextDataPoint s.store = s.store := by
      unfold nextDataPoint
      rw [show min (s.store.currentDataIndex + 1)
            (max 0 ((s.store.recordedData.length : Int) - 1))
          = s.store.currentDataIndex by
        rw [max_eq_right (by omega : (0 : Int) ≤ (s.store.recordedData.length : Int) - 1)]
        omega]
    simp [visualizeTick, hstay]

/-- Witness for C5 amended: the invariant holds for the two-sample log
with the cursor at the final index; there the tick keeps Playing, the
modulo display equals the plain lookup, and the tick is a fixpoint. -/
theorem visualizeTick_saturating_witness :
    StateInv (MotionState.mk false [sampleA, sampleB] 1) ∧
      (visualizeTick (VisualizeState.mk (MotionState.mk false [sampleA, sampleB] 1) true)).isPlaying
        = true ∧
      currentMotionData [sampleA, sampleB] 1 = [sampleA, sampleB].get? 1 ∧
      visualizeTick (VisualizeState.mk (MotionState.mk false [sampleA, sampleB] 1) true)
        = VisualizeState.mk (MotionState.mk false [sampleA, sampleB] 1) true := by
  have h := visualizeTick_saturating
    (VisualizeState.mk (MotionState.mk false [sampleA, sampleB] 1) true)
    (by decide) (by decide)
  exact ⟨by decide, h.1, h.2.2.2.1, h.2.2.2.2 (by decide)⟩

/-- Counterexample to C6: in App.js, with the non-empty log `[sampleA]`
and playback stopped, `getCurrentMotionData` returns the `null`
sentinel even though the log is not empty, so the sentinel is not
returned exactly when the log is empty. -/
theorem currentFrame_sentinel_counterexample :
    getCurrentMotionData (AppPlaybackState.mk [sampleA] 0 false false) = none ∧
      (AppPlaybackState.mk [sampleA] 0 false false).recordedData ≠ [] := by decide

/-- C6 amended: in the VisualizeScreen variant `currentMotionData` is
the `null` sentinel on an empty log and a real sample (the one the
modulo-indexed cursor designates) on a non-empty log with an in-bounds
cursor; in the App.js variant `getCurrentMotionData` returns the
sentinel whenever the log is empty or `isPlaying` is false, and the
sample at `currentFrameIndex` only while playing over a non-empty
log. -/
theorem currentFrame_characterization (s : AppPlaybackState)
    (ds : List MotionData) (idx : Int) :
    (ds = [] → currentMotionData ds idx = none) ∧
      (ds ≠ [] → 0 ≤ idx → idx ≤ (ds.length : Int) - 1 →
        currentMotionData ds idx = ds.get? idx.toNat ∧
          currentMotionData ds idx ≠ none) ∧
      (s.isPlaying = false → getCurrentMotionData s = none) ∧
      (s.recordedData = [] → getCurrentMotionData s = none) ∧
      (s.isPlaying = true → s.recordedData ≠ [] →
        getCurrentMotionData s = s.recordedData.get? s.currentFrameIndex.toNat) := by
  refine ⟨?_, ?_, ?_, ?_, ?_⟩
  · intro h
    simp [currentMotionData, h]
  · intro hne h0 h1
    have hpos : 0 < ds.length := List.length_pos.mpr hne
    unfold currentMotionData
    rw [if_pos hpos, Int.tmod_eq_of_lt h0 (by omega)]
    refine ⟨rfl, ?_⟩
    rw [Ne, List.get?_eq_none]
    omega
  · intro h
    simp [getCurrentMotionData, h]
  · intro h
    simp [getCurrentMotionData, h]
  · intro hp hne
    unfold getCurrentMotionData
    rw [if_neg (by
      rintro (h | h)
      · exact hne (List.length_eq_zero.mp h)
      · simp [hp] at h)]

/-- Witness for C6 amended: on the one-sample log, the VisualizeScreen
display yields the sample, while App.js yields the sentinel when not
playing and the sample while playing. -/
theorem currentFrame_characterization_witness :
    currentMotionData [sampleA] 0 = some sampleA ∧
      getCurrentMotionData (AppPlaybackState.mk [sampleA] 0 false false) = none ∧
      getCurrentMotionData (AppPlaybackState.mk [sampleA] 0 true true) = some sampleA := by
  have h := currentFrame_characterization
    (AppPlaybackState.mk [sampleA] 0 true true) [sampleA] 0
  have hstop := currentFrame_characterization
    (AppPlaybackState.mk [sampleA] 0 false false) [sampleA] 0
  refine ⟨?_, hstop.2.2.1 rfl, ?_⟩
  · rw [(h.2.1 (by decide) (by decide) (by decide)).1]
    rfl
  · rw [h.2.2.2.2 rfl (by decide)]
    rfl

/-- Counterexample to C8: the gyroscope listener of
`src/components/MotionTracker.tsx` produces an angular-rate sample
whose `rotationX/Y/Z` fields are present (set to the raw axes), not
absent. -/
theorem gyro_rotation_present_counterexample :
    (tsxGyroSample 50 7 8 9).type = SensorType.gyroscope ∧
      (tsxGyroSample 50 7 8 9).rotationX = some 7 ∧
      (tsxGyroSample 50 7 8 9).rotationY = some 8 ∧
      (tsxGyroSample 50 7 8 9).rotationZ = some 9 ∧
      (tsxGyroSample 50 7 8 9).rotationX ≠ none := by decide

/-- C8 amended: in `MotionTracker.js` the rotation fields are present
only on accelerometer samples (taken from the spring-animated values
with x and y swapped) and absent on the gyroscope sample, which is
moreover never forwarded to `onDataPoint`; in `MotionTracker.tsx` both
listeners set the rotation fields — the accelerometer listener with the
x and y axes swapped, the gyroscope listener with the raw axes
unchanged. -/
theorem rotation_fields_by_kind (t : Int) (x y z mx my mz : ℚ) :
    ((tsxAccelSample t x y z).type = SensorType.accelerometer ∧
      (tsxAccelSample t x y z).rotationX = some y ∧
      (tsxAccelSample t x y z).rotationY = some x ∧
      (tsxAccelSample t x y z).rotationZ = some z) ∧
    ((tsxGyroSample t x y z).type = SensorType.gyroscope ∧
      (tsxGyroSample t x y z).rotationX = some x ∧
      (tsxGyroSample t x y z).rotationY = some y ∧
      (tsxGyroSample t x y z).rotationZ = some z) ∧
    ((jsAccelSample t x y z mx my mz).type = SensorType.accelerometer ∧
      (jsAccelSample t x y z mx my mz).rotationX = some my ∧
      (jsAccelSample t x y z mx my mz).rotationY = some mx ∧
      (jsAccelSample t x y z mx my mz).rotationZ = some mz) ∧
    ((jsGyroSample t x y z).type = SensorType.gyroscope ∧
      (jsGyroSample t x y z).rotationX = none ∧
      (jsGyroSample t x y z).rotationY = none ∧
      (jsGyroSample t x y z).rotationZ = none) ∧
    jsGyroEmit t x y z = none :=
  ⟨⟨rfl, rfl, rfl, rfl⟩, ⟨rfl, rfl, rfl, rfl⟩, ⟨rfl, rfl, rfl, rfl⟩,
    ⟨rfl, rfl, rfl, rfl⟩, rfl⟩
